import Mathlib

/-!
Shallow embedding of the GlamByManpreet backend (`server.js`): the session
subsystem (creation, lookup, deletion, periodic sweep), the authentication
middleware, the login route, the inquiry-submission route, the booking
deletion route and the session-status route, together with theorems about
them.

The relational store (Supabase) is modelled as an in-memory record of
tables (lists of rows).  A `.single()` query succeeds exactly when the
filtered table holds exactly one row, mirroring supabase-js semantics
(zero rows or several rows yield an in-band error).  External outcomes
(whether a particular insert fails, whether an SMS or email dispatch
fails, the fresh ids and tokens generated outside the code) are explicit
parameters of the handler functions.
-/

namespace Glam

/-- Row of the `sessions` table: columns `sid`, `sess` (a JSON blob holding
`userId` and `createdAt`) and `expire`.  Timestamps are milliseconds. -/
structure SessionRow where
  sid : String
  sessUserId : Nat
  sessCreatedAt : Nat
  expire : Nat
deriving DecidableEq, Repr

/-- Row of the `clients_dev` table (columns set by the code: name, email, phone). -/
structure ClientRow where
  id : Nat
  name : String
  email : String
  phone : String
deriving DecidableEq, Repr

/-- Row of the `bookings_dev` table (the columns the code reads and writes). -/
structure BookingRow where
  id : Nat
  client_id : Nat
  event_date : String
  event_time : String
  event_type : String
  event_name : String
  hair_and_makeup : Bool
  hair_only : Bool
  makeup_only : Bool
  location : String
  additional_notes : String
deriving DecidableEq, Repr

/-- Row of the `accounts_dev` table (columns set by `/register` and read by `/login`). -/
structure AccountRow where
  id : Nat
  firstname : String
  lastname : String
  email : String
  password : String
deriving DecidableEq, Repr

/-- The record store: the tables the embedded routes touch. -/
structure Store where
  sessions : List SessionRow
  clients : List ClientRow
  bookings : List BookingRow
  accounts : List AccountRow
deriving DecidableEq, Repr

/-- Response body: `res.send(string)` or `res.json(object)` rendered as a
flat field list. -/
inductive RespBody where
  | text (s : String)
  | json (fields : List (String × String))
deriving DecidableEq, Repr

/-- An HTTP response: status code and body. -/
structure HttpResponse where
  status : Nat
  body : RespBody
deriving DecidableEq, Repr

/-- Looks up a field of a JSON response body. -/
def bodyField (b : RespBody) (key : String) : Option String :=
  match b with
  | .text _ => none
  | .json fields => (fields.find? (fun kv => kv.1 == key)).map (fun kv => kv.2)

/-- Result of the `.single()` query `from("sessions").select().eq("sid", sid).single()`:
some row when exactly one row matches, none otherwise (supabase reports an
error for zero or several rows). -/
def findSession (st : Store) (sessionId : String) : Option SessionRow :=
  match st.sessions.filter (fun r => r.sid == sessionId) with
  | [r] => some r
  | _ => none

/-- Embedding of `removeExpiredSessions` (server.js 591-606): deletes the
sessions rows with `expire < now` (the code uses the strict filter
`.lt("expire", new Date().toISOString())`); other tables untouched. -/
def removeExpiredSessions (now : Nat) (st : Store) : Store :=
  { st with sessions := st.sessions.filter (fun r => !(r.expire < now : Bool)) }

/-- Embedding of `createSession` (server.js 618-633): inserts a row with the
given sid, a `sess` blob carrying the user id and creation time, and
`expire = now + 30 * 60 * 1000` (30-minute expiration); success path. -/
def createSession (sessionId : String) (userId : Nat) (now : Nat) (st : Store) : Store :=
  { st with
    sessions := st.sessions ++
      [{ sid := sessionId, sessUserId := userId, sessCreatedAt := now,
         expire := now + 30 * 60 * 1000 }] }

/-- Outcome of the `isAuthenticated` middleware: a 401 rejection (for a
missing cookie or a failed lookup) or `next()` with `req.userId` attached. -/
inductive AuthOutcome where
  | unauthorizedNoSid
  | unauthorizedInvalid
  | proceed (userId : Nat)
deriving DecidableEq, Repr

/-- Status code the middleware sends, none when it calls `next()`. -/
def authStatus : AuthOutcome → Option Nat
  | .unauthorizedNoSid => some 401
  | .unauthorizedInvalid => some 401
  | .proceed _ => none

/-- Embedding of `isAuthenticated` (server.js 636-671): rejects with 401
when the `sid` cookie is absent; otherwise looks the row up by `sid` with
`.single()` and rejects with 401 when that fails; otherwise attaches
`session.sess.userId` and proceeds.  The store is returned unchanged (the
middleware never writes).  Note: the row's `expire` column is never
consulted. -/
def isAuthenticated (cookieSid : Option String) (st : Store) : AuthOutcome × Store :=
  match cookieSid with
  | none => (.unauthorizedNoSid, st)
  | some sessionId =>
    match findSession st sessionId with
    | none => (.unauthorizedInvalid, st)
    | some session => (.proceed session.sessUserId, st)

/-- Embedding of `getSession` (server.js 687-696): the `.single()` lookup,
null on error or missing data. -/
def getSession (sessionId : String) (st : Store) : Option SessionRow :=
  findSession st sessionId

/-- Embedding of `deleteSession` (server.js 697-700):
`from("sessions").delete().eq("sid", sessionId)`; deleting zero rows is
not an error. -/
def deleteSession (sessionId : String) (st : Store) : Store :=
  { st with sessions := st.sessions.filter (fun r => !(r.sid == sessionId)) }

/-- Result of the `.single()` query
`from("accounts_dev").select("id, email, password").eq("email", email).single()`. -/
def findAccount (st : Store) (email : String) : Option AccountRow :=
  match st.accounts.filter (fun a => a.email == email) with
  | [a] => some a
  | _ => none

/-- Full observable result of the `/login` route: status, body, the `sid`
cookie value when one is set, and the resulting store. -/
structure LoginResult where
  status : Nat
  body : RespBody
  cookie : Option String
  store : Store
deriving DecidableEq, Repr

/-- Embedding of `app.post("/login")` (server.js 1117-1182).  `verify`
models `bcrypt.compare` (password against stored hash); `freshSid` the
random token from `crypto.randomBytes`; `sessionInsertFails` whether the
sessions insert reports a storage error.  Unknown email and failed
password comparison both answer 401 "Invalid email or password"; on
success a row with `expire = now + 24h` is inserted, the `sid` cookie is
set and the body is the JSON object with the single field `message`. -/
def postLogin (verify : String → String → Bool) (email password : String)
    (freshSid : String) (now : Nat) (sessionInsertFails : Bool) (st : Store) :
    LoginResult :=
  match findAccount st email with
  | none => ⟨401, .text "Invalid email or password", none, st⟩
  | some user =>
    if verify password user.password then
      if sessionInsertFails then ⟨500, .text "Error creating session", none, st⟩
      else
        ⟨200, .json [("message", "Login successful")], some freshSid,
         { st with
           sessions := st.sessions ++
             [{ sid := freshSid, sessUserId := user.id, sessCreatedAt := now,
                expire := now + 24 * 60 * 60 * 1000 }] }⟩
    else ⟨401, .text "Invalid email or password", none, st⟩

/-- Mailgun / Twilio dispatch primitive: the external call either succeeds
or reports an error. -/
def mgSend (succeeds : Bool) : Except String Unit :=
  if succeeds then Except.ok () else Except.error "send failed"

/-- Embedding of `sendEmail` (server.js 718-732): the dispatch error is
caught inside the function (logged and swallowed), so the caller always
gets a plain unit back. -/
def sendEmail (succeeds : Bool) : Unit :=
  match mgSend succeeds with
  | Except.ok _ => ()
  | Except.error _ => ()

/-- Embedding of `sendSMS` (server.js 705-714): fire-and-forget with an
attached `.catch` that logs the rejection, so the caller always gets a
plain unit back. -/
def sendSMS (succeeds : Bool) : Unit :=
  match mgSend succeeds with
  | Except.ok _ => ()
  | Except.error _ => ()

/-- Request body of `POST /submit`. -/
structure SubmitReq where
  firstNameAndLastName : String
  phoneNumber : String
  emailAddress : String
  eventDate : String
  eventTime : String
  eventType : String
  eventName : String
  clientsHairAndMakeup : Bool
  clientsHairOnly : Bool
  clientsMakeupOnly : Bool
  locationAddress : String
  additionalNotes : String
deriving DecidableEq, Repr

/-- Embedding of `app.post("/submit")` (server.js 740-806): inserts the
client, then the booking referencing the fresh client id, then dispatches
SMS and email (whose outcomes are swallowed by `sendSMS` / `sendEmail`),
and answers 201.  A failed client insert aborts before the booking insert;
a failed booking insert leaves the already-inserted client row in place;
either failure answers 500. -/
def postSubmit (req : SubmitReq) (st : Store)
    (clientInsertFails : Bool) (freshClientId : Nat)
    (bookingInsertFails : Bool) (freshBookingId : Nat)
    (smsOk emailOk : Bool) : HttpResponse × Store :=
  if clientInsertFails then (⟨500, .text "Error inserting data"⟩, st)
  else
    let st1 := { st with
      clients := st.clients ++
        [{ id := freshClientId, name := req.firstNameAndLastName,
           email := req.emailAddress, phone := req.phoneNumber }] }
    if bookingInsertFails then (⟨500, .text "Error inserting data"⟩, st1)
    else
      let st2 := { st1 with
        bookings := st1.bookings ++
          [{ id := freshBookingId, client_id := freshClientId,
             event_date := req.eventDate, event_time := req.eventTime,
             event_type := req.eventType, event_name := req.eventName,
             hair_and_makeup := req.clientsHairAndMakeup,
             hair_only := req.clientsHairOnly,
             makeup_only := req.clientsMakeupOnly,
             location := req.locationAddress,
             additional_notes := req.additionalNotes }] }
      let _ := sendSMS smsOk
      let _ := sendEmail emailOk
      (⟨201, .text "Data inserted successfully"⟩, st2)

/-- Embedding of `app.delete("/bookings/:id")` (server.js 1041-1079):
looks the booking up with `.single()` (404 when that fails), deletes the
booking rows with that id, then deletes the client rows with the booking's
`client_id`, and answers 200. -/
def deleteBookingById (bookingId : Nat) (st : Store) : HttpResponse × Store :=
  match st.bookings.filter (fun b => b.id == bookingId) with
  | [b] =>
    let st1 := { st with bookings := st.bookings.filter (fun x => !(x.id == bookingId)) }
    let st2 := { st1 with clients := st1.clients.filter (fun c => !(c.id == b.client_id)) }
    (⟨200, .text "Booking and associated client deleted successfully"⟩, st2)
  | _ => (⟨404, .text ("Booking not found with id " ++ toString bookingId)⟩, st)

/-- Embedding of `app.get('/check-session-status')` (server.js 1187-1216):
200 with `active: false` when the cookie is missing or the `.single()`
lookup by `sid` fails, 200 with `active: true` when the row is found; the
row's `expire` column is never consulted. -/
def getCheckSessionStatus (cookieSid : Option String) (st : Store) : HttpResponse :=
  match cookieSid with
  | none => ⟨200, .json [("active", "false")]⟩
  | some sessionId =>
    match findSession st sessionId with
    | none => ⟨200, .json [("active", "false")]⟩
    | some _ => ⟨200, .json [("active", "true")]⟩

-- Concrete stores and helpers used by witnesses and counterexamples.

/-- A store with no rows in any table. -/
def emptyStore : Store :=
  { sessions := [], clients := [], bookings := [], accounts := [] }

/-- A store holding one session row whose `expire` (1000 ms) lies in the
past relative to the probe time 2000 ms used below. -/
def expiredStore : Store :=
  { sessions := [{ sid := "tok", sessUserId := 42, sessCreatedAt := 0, expire := 1000 }],
    clients := [], bookings := [], accounts := [] }

/-- A store holding one session row with `expire` exactly 5. -/
def sweepStore : Store :=
  { sessions := [{ sid := "t", sessUserId := 1, sessCreatedAt := 0, expire := 5 }],
    clients := [], bookings := [], accounts := [] }

/-- A store holding one account row. -/
def accStore : Store :=
  { sessions := [], clients := [], bookings := [],
    accounts := [{ id := 1, firstname := "Alice", lastname := "Smith",
                   email := "alice@example.com", password := "H" }] }

/-- A password check standing in for `bcrypt.compare` in concrete runs:
the submitted password matches when it equals the stored value. -/
def eqVerify : String → String → Bool := fun p h => p == h

/-- A concrete booking row referencing client 7. -/
def bRow : BookingRow :=
  { id := 3, client_id := 7, event_date := "d", event_time := "t",
    event_type := "ty", event_name := "n", hair_and_makeup := true,
    hair_only := false, makeup_only := false, location := "l",
    additional_notes := "a" }

/-- A store with one client and one booking referencing it. -/
def bookingStore : Store :=
  { sessions := [],
    clients := [{ id := 7, name := "Jane", email := "j@x", phone := "p" }],
    bookings := [bRow],
    accounts := [] }

-- Helper list lemmas shared by several proofs.

theorem filter_nil_of_forall {α : Type} (p : α → Bool) (l : List α)
    (h : ∀ a ∈ l, p a = false) : l.filter p = [] := by
  induction l with
  | nil => rfl
  | cons a t ih =>
    have ha := h a (List.mem_cons_self a t)
    have ih2 := ih (fun x hx => h x (List.mem_cons_of_mem a hx))
    simp [List.filter_cons, ha, ih2]

theorem filter_self_of_forall {α : Type} (p : α → Bool) (l : List α)
    (h : ∀ a ∈ l, p a = true) : l.filter p = l := by
  induction l with
  | nil => rfl
  | cons a t ih =>
    have ha := h a (List.mem_cons_self a t)
    have ih2 := ih (fun x hx => h x (List.mem_cons_of_mem a hx))
    simp [List.filter_cons, ha, ih2]

theorem filter_idem {α : Type} (p : α → Bool) (l : List α) :
    (l.filter p).filter p = l.filter p := by
  apply filter_self_of_forall
  intro a ha
  exact (List.mem_filter.mp ha).2

/-- C1: the `isAuthenticated` middleware accepts a session row whose
`expire` timestamp (1000 ms) is in the past relative to the probe time
(2000 ms): the row is in the store, it is expired, and the request is
granted access as user 42 instead of being rejected with 401, because the
lookup never compares `expire` with the current time.  This evidences the
divergence between the code and the claim that expiry is checked at
lookup time. -/
theorem C1_expired_session_accepted :
    ({ sid := "tok", sessUserId := 42, sessCreatedAt := 0, expire := 1000 } : SessionRow)
      ∈ expiredStore.sessions
    ∧ 1000 ≤ 2000
    ∧ (isAuthenticated (some "tok") expiredStore).1 = AuthOutcome.proceed 42
    ∧ authStatus (isAuthenticated (some "tok") expiredStore).1 ≠ some 401 := by
  decide

/-- C3 counterexample: sweeping at time 5 a store holding a row with
`expire = 5` (so `expire ≤ now`) does not delete that row — the code
filters with strict `expire < now` — refuting the claim that the sweep
removes exactly the rows with `expire ≤ now`. -/
theorem C3_boundary_counterexample :
    ¬ (∀ r ∈ (removeExpiredSessions 5 sweepStore).sessions, ¬ r.expire ≤ 5) := by
  decide

/-- C3 (amended): `removeExpiredSessions` deletes exactly the session
rows with `expire` strictly less than the current time and leaves every
other session row and every other table unchanged; running it twice at
the same time equals running it once. -/
theorem C3_sweep_exact (now : Nat) (st : Store) :
    (∀ r, r ∈ (removeExpiredSessions now st).sessions ↔
        r ∈ st.sessions ∧ ¬ r.expire < now)
    ∧ (removeExpiredSessions now st).clients = st.clients
    ∧ (removeExpiredSessions now st).bookings = st.bookings
    ∧ (removeExpiredSessions now st).accounts = st.accounts
    ∧ removeExpiredSessions now (removeExpiredSessions now st) =
        removeExpiredSessions now st := by
  refine ⟨?_, rfl, rfl, rfl, ?_⟩
  · intro r
    simp [removeExpiredSessions, List.mem_filter]
  · simp [removeExpiredSessions, filter_idem]

/-- Witness for C3: in the concrete store, the row with `expire = 5` is
kept by a sweep at time 5 (its expiry is not strictly below the call
time). -/
theorem C3_sweep_exact_witness :
    ({ sid := "t", sessUserId := 1, sessCreatedAt := 0, expire := 5 } : SessionRow)
      ∈ (removeExpiredSessions 5 sweepStore).sessions :=
  ((C3_sweep_exact 5 sweepStore).1 _).mpr ⟨by decide, by decide⟩

/-- C5: a session created by `createSession` with a token not already in
the store validates immediately through the middleware, resolving exactly
the account id it was created for (the code never consults the clock at
lookup, so this holds in particular while the TTL has not elapsed). -/
theorem C5_create_then_validate (sessionId : String) (userId now : Nat) (st : Store)
    (hfresh : ∀ r ∈ st.sessions, r.sid ≠ sessionId) :
    (isAuthenticated (some sessionId) (createSession sessionId userId now st)).1 =
      AuthOutcome.proceed userId := by
  have hnil : st.sessions.filter (fun r => r.sid == sessionId) = [] :=
    filter_nil_of_forall _ _ (fun a ha => by simpa using hfresh a ha)
  simp [isAuthenticated, findSession, createSession, List.filter_append, hnil]

/-- Witness for C5: creating a session in the empty store and validating
it resolves the created account id. -/
theorem C5_create_then_validate_witness :
    (isAuthenticated (some "s") (createSession "s" 42 0 emptyStore)).1 =
      AuthOutcome.proceed 42 :=
  C5_create_then_validate "s" 42 0 emptyStore (by decide)

/-- C6: with no `sid` cookie, the middleware answers 401 immediately; the
outcome is the same for every store state and the store is returned
unchanged (no lookup is performed). -/
theorem C6_no_cookie_fast_path (st st2 : Store) :
    isAuthenticated none st = (AuthOutcome.unauthorizedNoSid, st)
    ∧ (isAuthenticated none st).1 = (isAuthenticated none st2).1
    ∧ authStatus (isAuthenticated none st).1 = some 401 :=
  ⟨rfl, rfl, rfl⟩

/-- C7: after `deleteSession`, both `getSession` and the middleware treat
the token as invalid; deleting twice equals deleting once; and deleting a
token absent from the store leaves the store exactly unchanged. -/
theorem C7_revoke_then_invalid (sessionId : String) (st : Store) :
    getSession sessionId (deleteSession sessionId st) = none
    ∧ (isAuthenticated (some sessionId) (deleteSession sessionId st)).1 =
        AuthOutcome.unauthorizedInvalid
    ∧ deleteSession sessionId (deleteSession sessionId st) =
        deleteSession sessionId st
    ∧ ((∀ r ∈ st.sessions, r.sid ≠ sessionId) → deleteSession sessionId st = st) := by
  have hnil : (st.sessions.filter (fun r => !(r.sid == sessionId))).filter
      (fun r => r.sid == sessionId) = [] := by
    apply filter_nil_of_forall
    intro a ha
    have h2 := (List.mem_filter.mp ha).2
    simpa using h2
  have h1 : findSession (deleteSession sessionId st) sessionId = none := by
    simp [findSession, deleteSession, hnil]
  refine ⟨h1, ?_, ?_, ?_⟩
  · simp [isAuthenticated, h1]
  · simp [deleteSession, filter_idem]
  · intro h
    have hself : st.sessions.filter (fun r => !(r.sid == sessionId)) = st.sessions :=
      filter_self_of_forall _ _ (fun a ha => by simpa using h a ha)
    simp [deleteSession, hself]

/-- Witness for C7: deleting the only session invalidates it, and
deleting a token not present leaves the concrete store unchanged. -/
theorem C7_revoke_then_invalid_witness :
    getSession "t" (deleteSession "t" sweepStore) = none
    ∧ deleteSession "gone" sweepStore = sweepStore :=
  ⟨(C7_revoke_then_invalid "t" sweepStore).1,
   (C7_revoke_then_invalid "gone" sweepStore).2.2.2 (by decide)⟩

/-- C2 counterexample: a successful login (status 200) against the
concrete account store returns a body with no `id` field and no
`firstname` field, refuting the claim that the success payload contains
the account id and first name. -/
theorem C2_success_body_lacks_account_fields :
    (postLogin eqVerify "alice@example.com" "H" "s1" 0 false accStore).status = 200
    ∧ bodyField (postLogin eqVerify "alice@example.com" "H" "s1" 0 false accStore).body
        "id" = none
    ∧ bodyField (postLogin eqVerify "alice@example.com" "H" "s1" 0 false accStore).body
        "firstname" = none := by
  decide

/-- C2 (amended): a successful login answers 200 with the fixed JSON body
holding only the field `message = "Login successful"`; in particular the
body has no `password` field and no account fields, so the stored
password hash is never returned. -/
theorem C2_success_response (verify : String → String → Bool)
    (email password freshSid : String) (now : Nat) (st : Store) (u : AccountRow)
    (hfind : findAccount st email = some u)
    (hmatch : verify password u.password = true) :
    (postLogin verify email password freshSid now false st).status = 200
    ∧ (postLogin verify email password freshSid now false st).body =
        RespBody.json [("message", "Login successful")]
    ∧ bodyField (postLogin verify email password freshSid now false st).body
        "password" = none
    ∧ bodyField (postLogin verify email password freshSid now false st).body
        "id" = none := by
  refine ⟨?_, ?_, ?_, ?_⟩ <;> simp [postLogin, hfind, hmatch, bodyField]

/-- Witness for the amended C2 at a concrete successful login. -/
theorem C2_success_response_witness :
    (postLogin eqVerify "alice@example.com" "H" "s2" 3 false accStore).body =
      RespBody.json [("message", "Login successful")] :=
  (C2_success_response eqVerify "alice@example.com" "H" "s2" 3 accStore
    { id := 1, firstname := "Alice", lastname := "Smith",
      email := "alice@example.com", password := "H" }
    (by decide) (by decide)).2.1

/-- C4: a login with an email matching no account and a login with an
existing email but a failing password check produce exactly the same
result — same status (401), same body, no cookie, unchanged store — for
any fresh token, time and insert-outcome parameters. -/
theorem C4_login_failures_indistinguishable
    (verify : String → String → Bool) (st : Store)
    (email1 password1 email2 password2 sid1 sid2 : String)
    (now1 now2 : Nat) (f1 f2 : Bool) (u : AccountRow)
    (h1 : ∀ a ∈ st.accounts, a.email ≠ email1)
    (h2 : findAccount st email2 = some u)
    (h3 : verify password2 u.password = false) :
    postLogin verify email1 password1 sid1 now1 f1 st =
      postLogin verify email2 password2 sid2 now2 f2 st
    ∧ (postLogin verify email1 password1 sid1 now1 f1 st).status = 401
    ∧ (postLogin verify email1 password1 sid1 now1 f1 st).body =
        RespBody.text "Invalid email or password" := by
  have hnil : st.accounts.filter (fun a => a.email == email1) = [] :=
    filter_nil_of_forall _ _ (fun a ha => by simpa using h1 a ha)
  have hnone : findAccount st email1 = none := by
    simp [findAccount, hnil]
  refine ⟨?_, ?_, ?_⟩ <;> simp [postLogin, hnone, h2, h3]

/-- Witness for C4: against the concrete account store, an unknown-email
attempt and a wrong-password attempt on the existing account return
identical results. -/
theorem C4_login_failures_indistinguishable_witness :
    postLogin eqVerify "nobody@example.com" "x" "s1" 0 false accStore =
      postLogin eqVerify "alice@example.com" "wrong" "s2" 7 true accStore :=
  (C4_login_failures_indistinguishable eqVerify accStore
    "nobody@example.com" "x" "alice@example.com" "wrong" "s1" "s2" 0 7 false true
    { id := 1, firstname := "Alice", lastname := "Smith",
      email := "alice@example.com", password := "H" }
    (by decide) (by decide) (by decide)).1

/-- C8: when both the client insert and the booking insert succeed, the
`/submit` handler's response (and resulting store) is the same for every
combination of SMS and email dispatch outcomes — notifier failures are
swallowed — and the status is 201. -/
theorem C8_notifier_failures_swallowed (req : SubmitReq) (st : Store)
    (freshClientId freshBookingId : Nat) (sms1 email1 sms2 email2 : Bool) :
    postSubmit req st false freshClientId false freshBookingId sms1 email1 =
      postSubmit req st false freshClientId false freshBookingId sms2 email2
    ∧ (postSubmit req st false freshClientId false freshBookingId sms1 email1).1.status =
        201 :=
  ⟨rfl, rfl⟩

/-- C9: when exactly one booking row carries the requested id, the delete
route answers 200, removes every booking row with that id and every
client row with the booking's `client_id`, keeps all other bookings and
clients, and leaves the sessions and accounts tables unchanged. -/
theorem C9_delete_booking_cascades (bookingId : Nat) (st : Store) (b : BookingRow)
    (hone : st.bookings.filter (fun x => x.id == bookingId) = [b]) :
    (deleteBookingById bookingId st).1.status = 200
    ∧ (∀ x ∈ (deleteBookingById bookingId st).2.bookings, x.id ≠ bookingId)
    ∧ (∀ c ∈ (deleteBookingById bookingId st).2.clients, c.id ≠ b.client_id)
    ∧ (∀ x ∈ st.bookings, x.id ≠ bookingId →
        x ∈ (deleteBookingById bookingId st).2.bookings)
    ∧ (∀ c ∈ st.clients, c.id ≠ b.client_id →
        c ∈ (deleteBookingById bookingId st).2.clients)
    ∧ (deleteBookingById bookingId st).2.sessions = st.sessions
    ∧ (deleteBookingById bookingId st).2.accounts = st.accounts := by
  simp only [deleteBookingById, hone]
  refine ⟨by trivial, ?_, ?_, ?_, ?_, by trivial, by trivial⟩
  · intro x hx
    have h2 := (List.mem_filter.mp hx).2
    simpa using h2
  · intro c hc
    have h2 := (List.mem_filter.mp hc).2
    simpa using h2
  · intro x hx hne
    exact List.mem_filter.mpr ⟨hx, by simpa using hne⟩
  · intro c hc hne
    exact List.mem_filter.mpr ⟨hc, by simpa using hne⟩

/-- Witness for C9: deleting booking 3 from the concrete store answers
200 and leaves no client row with id 7 (the cascaded client). -/
theorem C9_delete_booking_cascades_witness :
    (deleteBookingById 3 bookingStore).1.status = 200
    ∧ (∀ c ∈ (deleteBookingById 3 bookingStore).2.clients, c.id ≠ 7) :=
  ⟨(C9_delete_booking_cascades 3 bookingStore bRow (by decide)).1,
   (C9_delete_booking_cascades 3 bookingStore bRow (by decide)).2.2.1⟩

/-- C10: the session-status route answers 200 with `active: false` when
the cookie is missing or the lookup fails, 200 with `active: true`
whenever the row is found (for any row, expired or not), and never
answers 401. -/
theorem C10_session_status (st : Store) :
    getCheckSessionStatus none st = ⟨200, RespBody.json [("active", "false")]⟩
    ∧ (∀ sessionId, findSession st sessionId = none →
        getCheckSessionStatus (some sessionId) st =
          ⟨200, RespBody.json [("active", "false")]⟩)
    ∧ (∀ sessionId r, findSession st sessionId = some r →
        getCheckSessionStatus (some sessionId) st =
          ⟨200, RespBody.json [("active", "true")]⟩)
    ∧ (∀ c, (getCheckSessionStatus c st).status ≠ 401) := by
  refine ⟨rfl, ?_, ?_, ?_⟩
  · intro sessionId h
    simp [getCheckSessionStatus, h]
  · intro sessionId r h
    simp [getCheckSessionStatus, h]
  · intro c
    match c with
    | none => simp [getCheckSessionStatus]
    | some sessionId =>
      rcases h : findSession st sessionId with _ | r <;>
        simp [getCheckSessionStatus, h]

/-- Witness for C10: the concrete store's session row is long expired,
yet the status route reports it active; an absent token reports
inactive. -/
theorem C10_session_status_witness :
    getCheckSessionStatus (some "tok") expiredStore =
      ⟨200, RespBody.json [("active", "true")]⟩
    ∧ getCheckSessionStatus (some "gone") expiredStore =
      ⟨200, RespBody.json [("active", "false")]⟩ :=
  ⟨(C10_session_status expiredStore).2.2.1 "tok"
      { sid := "tok", sessUserId := 42, sessCreatedAt := 0, expire := 1000 }
      (by decide),
   (C10_session_status expiredStore).2.1 "gone" (by decide)⟩

end Glam
